import Mathlib

/-!
Verification of the concurrent receive/wait engine of `test_driver.py`
(`TestLogger`, `StandardLogger`, `TestTarget`) against its specification.

Text is modelled as `List Char`.  Byte payloads are modelled as `List Nat`
(values `0 ≤ b < 256`).  The engine's mutable state is the structure
`TestTarget`; each Python method becomes a pure function from state (and
arguments) to state (and result).  Blocking semaphore acquisition is
abstracted by an oracle `Nat → Bool` giving the outcome (signalled = true /
timeout = false) of each acquire that actually blocks, consumed at an index
that is threaded through.  Python exceptions are modelled with `Except`:
`Except.error name` aborts the call with the named exception.
-/

namespace TcpTestDriver

/-- Python's substring containment `needle in haystack` on strings. -/
def containsSub (needle haystack : List Char) : Bool :=
  haystack.tails.any (fun t => needle.isPrefixOf t)

/-- The characters Python's `str.splitlines` treats as line boundaries
(`\n`, `\r`, `\v`, `\f`, FS, GS, RS, NEL, LINE SEPARATOR, PARAGRAPH
SEPARATOR); `\r\n` is handled as a single boundary in `pySplitlines`. -/
def isLineBreak (c : Char) : Bool :=
  c = '\n' || c = '\r' || c.toNat = 0x0B || c.toNat = 0x0C ||
  c.toNat = 0x1C || c.toNat = 0x1D || c.toNat = 0x1E ||
  c.toNat = 0x85 || c.toNat = 0x2028 || c.toNat = 0x2029

/-- Auxiliary loop for `pySplitlines`; `acc` is the reversed current line.
A `\r\n` pair is one boundary; a lone `\r` is covered by `isLineBreak`. -/
def splitlinesAux : List Char → List Char → List (List Char)
  | [], acc => if acc.isEmpty then [] else [acc.reverse]
  | '\r' :: '\n' :: rest, acc => acc.reverse :: splitlinesAux rest []
  | c :: rest, acc =>
    if isLineBreak c then
      acc.reverse :: splitlinesAux rest []
    else
      splitlinesAux rest (c :: acc)

/-- Python's `str.splitlines()` (without `keepends`). -/
def pySplitlines (s : List Char) : List (List Char) :=
  splitlinesAux s []

/-- The line-splitting step of `TestTarget.receiver`: `data.splitlines()`
when `split_lines` is set, else the whole chunk as a single unit. -/
def splitData (split : Bool) (data : List Char) : List (List Char) :=
  if split then pySplitlines data else [data]

/-- Concatenation of the expansions of a chunk sequence, in arrival order. -/
def expandChunks (split : Bool) : List (List Char) → List (List Char)
  | [] => []
  | d :: ds => splitData split d ++ expandChunks split ds

/-- State of one `TestTarget` instance (`TestTarget.__init__`).
`wait_strings = none` models Python `None` ("any" wait armed);
`semaphore` is the semaphore's pending-release count; `log` records the
`(message, info)` pairs passed to `TestTarget.log`; `tx_sent` records the
byte payloads actually handed to `Connector.send`; `thread_started`
records whether the receiver thread has been spawned. -/
structure TestTarget where
  rx_buffer : List (List Char)
  wait_strings : Option (List (List Char))
  semaphore : Nat
  found_str : Option (List Char)
  active : Bool
  flush_before_wait : Bool
  split_lines : Bool
  thread_started : Bool
  log : List (List Char × String)
  tx_sent : List (List Nat)
deriving DecidableEq, Repr

/-- The state built by `TestTarget.__init__`. -/
def TestTarget.init : TestTarget :=
  { rx_buffer := []
    wait_strings := some []
    semaphore := 0
    found_str := none
    active := false
    flush_before_wait := false
    split_lines := false
    thread_started := false
    log := []
    tx_sent := [] }

/-- Whether a received unit matches the armed target set: the inner
`for string in self.wait_strings: if string in line` test of the
receiver. -/
def lineMatches (ws : List (List Char)) (line : List Char) : Bool :=
  ws.any (fun s => containsSub s line)

/-- Body of the receiver's `for line in lines` loop: log the unit with the
receive tag, append it to the buffer, and on a match record it as
`found_str` and release the semaphore once. -/
def processLine (ws : List (List Char)) (st : TestTarget) (line : List Char) :
    TestTarget :=
  let st1 := { st with log := st.log ++ [(line, "RX")],
                       rx_buffer := st.rx_buffer ++ [line] }
  if lineMatches ws line then
    { st1 with found_str := some line, semaphore := st1.semaphore + 1 }
  else st1

/-- One iteration of `TestTarget.receiver` on a non-sentinel chunk `data`.
With an "any" wait armed (`wait_strings = none`) Python releases the
semaphore, sets `found_str = lines[0]` and extends the buffer; `lines[0]`
raises `IndexError` when the split produced no lines, which we model as
`none`. -/
def receiverStep (st : TestTarget) (data : List Char) : Option TestTarget :=
  let lines := splitData st.split_lines data
  match st.wait_strings with
  | none =>
    match lines with
    | [] => none
    | l0 :: _ =>
      some { st with semaphore := st.semaphore + 1,
                     found_str := some l0,
                     rx_buffer := st.rx_buffer ++ lines }
  | some ws => some (lines.foldl (processLine ws) st)

/-- N iterations of the receive loop on non-sentinel chunks; each iteration
first checks `while self.active`. -/
def receiverRun : TestTarget → List (List Char) → Option TestTarget
  | st, [] => some st
  | st, d :: ds =>
    if st.active then
      match receiverStep st d with
      | some st1 => receiverRun st1 ds
      | none => none
    else some st

/-- Model of `TestTarget.flush_rx`: clear the receive buffer. -/
def flush_rx (st : TestTarget) : TestTarget :=
  { st with rx_buffer := [] }

/-- Model of `TestTarget.__flush_semaphore`: non-blocking acquires until the count is
exhausted, logging a discard message for each drained signal. -/
def flushSemaphore (st : TestTarget) : TestTarget :=
  { st with semaphore := 0,
            log := st.log ++
              List.replicate st.semaphore ("discard event".toList, "WR") }

/-- Model of `semaphore.acquire(timeout=...)`: a pending release is consumed
immediately (result `true`); otherwise the call blocks and its outcome is
`oracle idx` (`true` = signalled, `false` = timeout), advancing the oracle
index. -/
def pyAcquire (st : TestTarget) (oracle : Nat → Bool) (idx : Nat) :
    TestTarget × Bool × Nat :=
  if st.semaphore > 0 then ({ st with semaphore := st.semaphore - 1 }, true, idx)
  else (st, oracle idx, idx + 1)

/-- Loop of `TestTarget.find_str` over the buffer: decrement `count` on each
unit containing `string`; when it reaches exactly zero, record the unit and
stop. -/
def findStrLoop (string : List Char) :
    List (List Char) → Int → Int × Option (List Char)
  | [], count => (count, none)
  | line :: rest, count =>
    if containsSub string line then
      if count - 1 = 0 then (count - 1, some line)
      else findStrLoop string rest (count - 1)
    else findStrLoop string rest count

/-- Model of `TestTarget.find_str`: reset `found_str`, scan the buffer, return the
remaining count (may be negative). -/
def find_str (st : TestTarget) (string : List Char) (count : Int) :
    TestTarget × Int :=
  let (c, f) := findStrLoop string st.rx_buffer count
  ({ st with found_str := f }, c)

/-- Model of `TestTarget.wait_any`: with a non-empty buffer return `true` at once
with `found_str = rx_buffer[0]`; otherwise drain stale signals, arm the
"any" wait (`wait_strings = None`), block once, then clear the wait
request. -/
def wait_any (st : TestTarget) (oracle : Nat → Bool) (idx : Nat) :
    TestTarget × Bool × Nat :=
  match st.rx_buffer with
  | x :: _ => ({ st with found_str := some x }, true, idx)
  | [] =>
    let st1 := flushSemaphore st
    let st2 := { st1 with wait_strings := none }
    let q := pyAcquire st2 oracle idx
    ({ q.1 with wait_strings := some [] }, q.2.1, q.2.2)

/-- The `while count > 0 and self.active` loop of `TestTarget.wait_str`,
with the remaining occurrence count as a `Nat` (the loop guard `count > 0`
makes the integer count and its `toNat` interchangeable).  `result` is the
Python local of the same name: `none` while still unassigned. -/
def waitStrLoop (oracle : Nat → Bool) :
    Nat → TestTarget → Nat → Option Bool → TestTarget × Option Bool × Nat
  | 0, st, idx, result => (st, result, idx)
  | Nat.succ n, st, idx, result =>
    if st.active then
      let (st1, b, idx1) := pyAcquire st oracle idx
      if b then waitStrLoop oracle n st1 idx1 (some true)
      else (st1, some false, idx1)
    else (st, result, idx)

/-- Epilogue of `TestTarget.wait_str` after its while loop: clear the
wait-request set, then `return result`.  A still-unassigned `result`
(the loop body never ran) raises `UnboundLocalError`. -/
def finishWaitStr (q : TestTarget × Option Bool × Nat) :
    Except String (TestTarget × Bool × Nat) :=
  match q.2.1 with
  | some b => Except.ok ({ q.1 with wait_strings := some [] }, b, q.2.2)
  | none => Except.error "UnboundLocalError"

/-- Model of `TestTarget.wait_str`: optional flush, pre-scan with `find_str`, drain
stale signals, arm `string`, then block once per remaining occurrence.
When the loop body never runs, Python returns the unassigned local
`result`, raising `UnboundLocalError`; appending to a `None`
`wait_strings` would raise `AttributeError`. -/
def wait_str (st : TestTarget) (string : List Char) (count : Int)
    (oracle : Nat → Bool) (idx : Nat) :
    Except String (TestTarget × Bool × Nat) :=
  let st1 := if st.flush_before_wait then flush_rx st else st
  let p := find_str st1 string count
  let st3 := flushSemaphore p.1
  match st3.wait_strings with
  | none => Except.error "AttributeError"
  | some ws =>
    let st4 := { st3 with wait_strings := some (ws ++ [string]) }
    finishWaitStr (waitStrLoop oracle p.2.toNat st4 idx none)

/-- The first argument Python passes to `TestTarget.__find_multi_str`:
either an actual list of strings, or the built-in type object `list`
(which `TestTarget.find_multi_str` passes by mistake); iterating the
latter raises `TypeError`. -/
inductive PyStrsArg where
  | strs : List (List Char) → PyStrsArg
  | listType : PyStrsArg
deriving DecidableEq, Repr

/-- The nested loops of `TestTarget.__find_multi_str`: first unit containing
any of the strings wins; iterating a non-list `strings` raises. -/
def findMultiStrLoop (strings : PyStrsArg) :
    List (List Char) → Except String (Option (List Char) × Bool)
  | [] => Except.ok (none, false)
  | line :: rest =>
    match strings with
    | PyStrsArg.listType => Except.error "TypeError"
    | PyStrsArg.strs ss =>
      if lineMatches ss line then Except.ok (some line, true)
      else findMultiStrLoop strings rest

/-- Model of `TestTarget.__find_multi_str`: resets `found_str`, then scans `lines`. -/
def pyFindMultiStr (strings : PyStrsArg) (st : TestTarget)
    (lines : List (List Char)) : Except String (TestTarget × Bool) :=
  match findMultiStrLoop strings lines with
  | Except.ok (f, b) => Except.ok ({ st with found_str := f }, b)
  | Except.error e => Except.error e

/-- Model of `TestTarget.find_multi_str(strings, lines)`: the body ignores both
parameters and calls `__find_multi_str(list, self.rx_buffer)`, passing the
built-in type object `list` as the string set. -/
def find_multi_str (st : TestTarget) (strings : List (List Char))
    (lines : Option (List (List Char))) : Except String (TestTarget × Bool) :=
  pyFindMultiStr PyStrsArg.listType st st.rx_buffer

/-- Drain stale signals, arm `strings` as the wait-request set, block once,
clear the set: the tail of `TestTarget.wait_multi_str`. -/
def armAndWait (st : TestTarget) (strings : List (List Char))
    (oracle : Nat → Bool) (idx : Nat) : TestTarget × Bool × Nat :=
  let st1 := flushSemaphore st
  let st2 := { st1 with wait_strings := some strings }
  let q := pyAcquire st2 oracle idx
  ({ q.1 with wait_strings := some [] }, q.2.1, q.2.2)

/-- Model of `TestTarget.wait_multi_str`: optional flush (which skips the pre-scan),
else pre-scan the buffer with `__find_multi_str` and return `true` at once
on a hit; otherwise arm the set and block once. -/
def wait_multi_str (st : TestTarget) (strings : List (List Char))
    (oracle : Nat → Bool) (idx : Nat) :
    Except String (TestTarget × Bool × Nat) :=
  if st.flush_before_wait then
    Except.ok (armAndWait (flush_rx st) strings oracle idx)
  else
    match pyFindMultiStr (PyStrsArg.strs strings) st st.rx_buffer with
    | Except.error e => Except.error e
    | Except.ok (st1, true) => Except.ok (st1, true, idx)
    | Except.ok (st1, false) => Except.ok (armAndWait st1 strings oracle idx)

/-- Model of `TestTarget.start`, parametrised by the outcome of `connector.open()`:
on failure log an error and return `False`; on success set `active`, spawn
the receiver thread and return `True`. -/
def start (openResult : Bool) (st : TestTarget) : TestTarget × Bool :=
  if ¬ openResult then
    ({ st with log := st.log ++ [("failed to connect".toList, "ER")] }, false)
  else
    ({ st with active := true, thread_started := true }, true)

/-- Is `b` a UTF-8 continuation byte (`0x80..0xBF`)? -/
def isCont (b : Nat) : Bool :=
  0x80 ≤ b && b < 0xC0

/-- Fuelled worker for `utf8Decode`; each multi-byte sequence consumes at
least one byte, so fuel `l.length` always suffices and the out-of-fuel
branch is unreachable when called through `utf8Decode`. -/
def utf8DecodeFuel : Nat → List Nat → Option (List Char)
  | _, [] => some []
  | 0, _ :: _ => none
  | Nat.succ fuel, b :: rest =>
    if b < 0x80 then
      (utf8DecodeFuel fuel rest).map (fun cs => Char.ofNat b :: cs)
    else if b < 0xC2 then none
    else if b < 0xE0 then
      match rest with
      | c1 :: rest2 =>
        if isCont c1 then
          (utf8DecodeFuel fuel rest2).map
            (fun cs => Char.ofNat ((b - 0xC0) * 0x40 + (c1 - 0x80)) :: cs)
        else none
      | [] => none
    else if b < 0xF0 then
      match rest with
      | c1 :: c2 :: rest3 =>
        if (if b = 0xE0 then 0xA0 ≤ c1 && c1 < 0xC0
            else if b = 0xED then 0x80 ≤ c1 && c1 < 0xA0
            else isCont c1) && isCont c2 then
          (utf8DecodeFuel fuel rest3).map
            (fun cs => Char.ofNat ((b - 0xE0) * 0x1000 +
              (c1 - 0x80) * 0x40 + (c2 - 0x80)) :: cs)
        else none
      | _ => none
    else if b < 0xF5 then
      match rest with
      | c1 :: c2 :: c3 :: rest4 =>
        if (if b = 0xF0 then 0x90 ≤ c1 && c1 < 0xC0
            else if b = 0xF4 then 0x80 ≤ c1 && c1 < 0x90
            else isCont c1) && isCont c2 && isCont c3 then
          (utf8DecodeFuel fuel rest4).map
            (fun cs => Char.ofNat ((b - 0xF0) * 0x40000 +
              (c1 - 0x80) * 0x1000 + (c2 - 0x80) * 0x40 + (c3 - 0x80)) :: cs)
        else none
      | _ => none
    else none

/-- Strict UTF-8 decoding of a byte sequence, as performed by Python's
`bytes.decode()`: rejects invalid start bytes, truncated sequences,
overlong encodings, surrogates and code points above `0x10FFFF`. -/
def utf8Decode (l : List Nat) : Option (List Char) :=
  utf8DecodeFuel l.length l

/-- Model of `TestTarget.send(message)`: `self.log(message.decode(), 'TX')` runs
first, so an invalid-UTF-8 payload raises `UnicodeDecodeError` before
anything reaches `connector.send`; the error carries the state at the
raise point. -/
def send (st : TestTarget) (message : List Nat) :
    Except (String × TestTarget) TestTarget :=
  match utf8Decode message with
  | none => Except.error ("UnicodeDecodeError", st)
  | some text =>
    Except.ok { st with log := st.log ++ [(text, "TX")],
                        tx_sent := st.tx_sent ++ [message] }

/-- The message normalisation shared by `TestLogger.write` and
`StandardLogger.write`: an empty message becomes a newline, a message not
ending in `\r` or `\n` gets a newline appended. -/
def loggerNormalize (message : List Char) : List Char :=
  match message.getLast? with
  | none => ['\n']
  | some c => if c = '\r' ∨ c = '\n' then message else message ++ ['\n']

/-- The full line emitted by `StandardLogger.write`:
`f"{time_ns}:{info}:{message}"` after normalisation, with the timestamp
abstracted as a character list. -/
def standardLoggerLine (timestamp info message : List Char) : List Char :=
  timestamp ++ ':' :: info ++ ':' :: loggerNormalize message

/-- Does a logged line end in a line terminator (`\r` or `\n`)? -/
def endsWithTerminator (l : List Char) : Bool :=
  match l.getLast? with
  | some c => c = '\r' || c = '\n'
  | none => false

/-- The unit recorded as found-match after scanning `lines` in order with a
prior value `dflt`: each matching unit overwrites the record. -/
def lastMatch (p : List Char → Bool) (lines : List (List Char))
    (dflt : Option (List Char)) : Option (List Char) :=
  lines.foldl (fun acc l => if p l then some l else acc) dflt

section ReceiverLemmas

lemma processLine_rx_buffer (ws : List (List Char)) (st : TestTarget)
    (line : List Char) :
    (processLine ws st line).rx_buffer = st.rx_buffer ++ [line] := by
  by_cases h : lineMatches ws line <;> simp [processLine, h]

lemma processLine_log (ws : List (List Char)) (st : TestTarget)
    (line : List Char) :
    (processLine ws st line).log = st.log ++ [(line, "RX")] := by
  by_cases h : lineMatches ws line <;> simp [processLine, h]

lemma processLine_semaphore (ws : List (List Char)) (st : TestTarget)
    (line : List Char) :
    (processLine ws st line).semaphore =
      st.semaphore + (if lineMatches ws line then 1 else 0) := by
  by_cases h : lineMatches ws line <;> simp [processLine, h]

lemma processLine_found_str (ws : List (List Char)) (st : TestTarget)
    (line : List Char) :
    (processLine ws st line).found_str =
      (if lineMatches ws line then some line else st.found_str) := by
  by_cases h : lineMatches ws line <;> simp [processLine, h]

lemma processLine_rest (ws : List (List Char)) (st : TestTarget)
    (line : List Char) :
    (processLine ws st line).wait_strings = st.wait_strings ∧
    (processLine ws st line).active = st.active ∧
    (processLine ws st line).split_lines = st.split_lines ∧
    (processLine ws st line).flush_before_wait = st.flush_before_wait ∧
    (processLine ws st line).thread_started = st.thread_started ∧
    (processLine ws st line).tx_sent = st.tx_sent := by
  by_cases h : lineMatches ws line <;> simp [processLine, h]

lemma foldl_processLine_rx_buffer (ws : List (List Char)) :
    ∀ (lines : List (List Char)) (st : TestTarget),
      (lines.foldl (processLine ws) st).rx_buffer = st.rx_buffer ++ lines
  | [], st => by simp
  | l :: rest, st => by
    rw [List.foldl_cons, foldl_processLine_rx_buffer ws rest,
        processLine_rx_buffer]
    simp

lemma foldl_processLine_log (ws : List (List Char)) :
    ∀ (lines : List (List Char)) (st : TestTarget),
      (lines.foldl (processLine ws) st).log =
        st.log ++ lines.map (fun l => (l, "RX"))
  | [], st => by simp
  | l :: rest, st => by
    rw [List.foldl_cons, foldl_processLine_log ws rest, processLine_log]
    simp

lemma foldl_processLine_semaphore (ws : List (List Char)) :
    ∀ (lines : List (List Char)) (st : TestTarget),
      (lines.foldl (processLine ws) st).semaphore =
        st.semaphore + lines.countP (lineMatches ws)
  | [], st => by simp
  | l :: rest, st => by
    rw [List.foldl_cons, foldl_processLine_semaphore ws rest,
        processLine_semaphore, List.countP_cons]
    by_cases h : lineMatches ws l <;> simp [h] <;> omega

lemma foldl_processLine_found_str (ws : List (List Char)) :
    ∀ (lines : List (List Char)) (st : TestTarget),
      (lines.foldl (processLine ws) st).found_str =
        lastMatch (lineMatches ws) lines st.found_str
  | [], st => by simp [lastMatch]
  | l :: rest, st => by
    rw [List.foldl_cons, foldl_processLine_found_str ws rest,
        processLine_found_str]
    simp [lastMatch]

lemma foldl_processLine_rest (ws : List (List Char)) :
    ∀ (lines : List (List Char)) (st : TestTarget),
      (lines.foldl (processLine ws) st).wait_strings = st.wait_strings ∧
      (lines.foldl (processLine ws) st).active = st.active ∧
      (lines.foldl (processLine ws) st).split_lines = st.split_lines ∧
      (lines.foldl (processLine ws) st).flush_before_wait =
        st.flush_before_wait ∧
      (lines.foldl (processLine ws) st).thread_started = st.thread_started ∧
      (lines.foldl (processLine ws) st).tx_sent = st.tx_sent
  | [], st => by simp
  | l :: rest, st => by
    have h1 := processLine_rest ws st l
    have h2 := foldl_processLine_rest ws rest (processLine ws st l)
    rw [List.foldl_cons]
    exact ⟨h2.1.trans h1.1, h2.2.1.trans h1.2.1, h2.2.2.1.trans h1.2.2.1,
      h2.2.2.2.1.trans h1.2.2.2.1, h2.2.2.2.2.1.trans h1.2.2.2.2.1,
      h2.2.2.2.2.2.trans h1.2.2.2.2.2⟩

lemma receiverStep_buffer (st st1 : TestTarget) (data : List Char)
    (h : receiverStep st data = some st1) :
    st1.rx_buffer = st.rx_buffer ++ splitData st.split_lines data ∧
    st1.active = st.active ∧ st1.split_lines = st.split_lines := by
  unfold receiverStep at h
  cases hw : st.wait_strings with
  | none =>
    rw [hw] at h
    cases hl : splitData st.split_lines data with
    | nil => rw [hl] at h; exact absurd h (by simp)
    | cons l0 ls =>
      rw [hl] at h
      cases h
      simp
  | some ws =>
    rw [hw] at h
    cases h
    exact ⟨foldl_processLine_rx_buffer ws _ st,
      (foldl_processLine_rest ws _ st).2.1,
      (foldl_processLine_rest ws _ st).2.2.1⟩

end ReceiverLemmas

/-- C1: for every sequence of non-sentinel chunks processed by the receive
loop of an active engine, the buffer afterwards is the prior buffer
followed by the concatenation of the chunks (line-splitting off) or of
each chunk's line-split expansion (line-splitting on), in arrival order,
with no unit removed. -/
theorem receiver_buffer_concat :
    ∀ (chunks : List (List Char)) (st st1 : TestTarget),
      st.active = true → receiverRun st chunks = some st1 →
      st1.rx_buffer = st.rx_buffer ++ expandChunks st.split_lines chunks
  | [], st, st1, _, h => by
    cases h
    simp [expandChunks]
  | d :: ds, st, st1, hact, h => by
    rw [receiverRun, hact] at h
    simp only [if_true] at h
    cases hs : receiverStep st d with
    | none => rw [hs] at h; exact absurd h (by simp)
    | some st2 =>
      rw [hs] at h
      obtain ⟨hb, ha, hl⟩ := receiverStep_buffer st st2 d hs
      have ih := receiver_buffer_concat ds st2 st1 (ha.trans hact) h
      rw [ih, hb, hl, expandChunks, List.append_assoc]

/-- Witness for C1 at a concrete run of two chunks. -/
def c1Start : TestTarget := { TestTarget.init with active := true }

/-- The state after the concrete C1 run. -/
def c1End : TestTarget :=
  { TestTarget.init with
      active := true
      rx_buffer := ["ab".toList, "cd".toList]
      log := [("ab".toList, "RX"), ("cd".toList, "RX")] }

/-- Witness for C1: the theorem applied to a concrete two-chunk run. -/
theorem receiver_buffer_concat_witness :
    c1Start.active = true ∧
    receiverRun c1Start ["ab".toList, "cd".toList] = some c1End ∧
    c1End.rx_buffer =
      c1Start.rx_buffer ++ expandChunks c1Start.split_lines
        ["ab".toList, "cd".toList] :=
  ⟨rfl, rfl, receiver_buffer_concat ["ab".toList, "cd".toList] c1Start c1End
    rfl rfl⟩

/-- Concrete engine state with the "any" wait armed, for the C2
counterexample. -/
def c2AnySt : TestTarget :=
  { TestTarget.init with active := true, wait_strings := none }

/-- C2 counterexample: with an "any" wait armed, the iteration on chunk
"x" appends the unit to the buffer but logs nothing at all, so the unit is
not logged with a receive tag as the claim asserts for this case. -/
theorem receiver_any_branch_no_rx_log :
    (receiverStep c2AnySt ['x']).map TestTarget.log = some [] ∧
    (receiverStep c2AnySt ['x']).map TestTarget.rx_buffer = some [['x']] :=
  ⟨rfl, rfl⟩

/-- C2 (amended): in an iteration on a non-sentinel chunk, when a target-set
wait (possibly empty) is armed, each resulting unit is logged with the
receive tag and appended to the buffer in order, the consumer is signaled
once per unit matching the target set, and the found-match record ends as
the last matching unit (unchanged when none matches); when the "any" wait
is armed instead, the consumer is signaled exactly once for the chunk, the
found-match is set to the chunk's first unit, and all units are appended
without per-unit logging or matching. -/
theorem receiver_step_units (st st1 : TestTarget) (data : List Char)
    (hstep : receiverStep st data = some st1) :
    (∀ ws, st.wait_strings = some ws →
      st1.rx_buffer = st.rx_buffer ++ splitData st.split_lines data ∧
      st1.log = st.log ++
        (splitData st.split_lines data).map (fun l => (l, "RX")) ∧
      st1.semaphore = st.semaphore +
        (splitData st.split_lines data).countP (lineMatches ws) ∧
      st1.found_str =
        lastMatch (lineMatches ws) (splitData st.split_lines data)
          st.found_str) ∧
    (st.wait_strings = none →
      st1.rx_buffer = st.rx_buffer ++ splitData st.split_lines data ∧
      st1.log = st.log ∧
      st1.semaphore = st.semaphore + 1 ∧
      st1.found_str = (splitData st.split_lines data).head?) := by
  unfold receiverStep at hstep
  constructor
  · intro ws hw
    rw [hw] at hstep
    cases hstep
    exact ⟨foldl_processLine_rx_buffer ws _ st,
      foldl_processLine_log ws _ st,
      foldl_processLine_semaphore ws _ st,
      foldl_processLine_found_str ws _ st⟩
  · intro hw
    rw [hw] at hstep
    cases hl : splitData st.split_lines data with
    | nil => rw [hl] at hstep; exact absurd hstep (by simp)
    | cons l0 ls =>
      rw [hl] at hstep
      cases hstep
      simp

/-- Concrete armed state for the C2 witness. -/
def c2ArmSt : TestTarget :=
  { TestTarget.init with active := true, wait_strings := some [['x']] }

/-- The state after the C2 witness iteration. -/
def c2ArmEnd : TestTarget :=
  { TestTarget.init with
      active := true
      wait_strings := some [['x']]
      rx_buffer := ["axb".toList]
      log := [("axb".toList, "RX")]
      semaphore := 1
      found_str := some "axb".toList }

/-- Witness for the amended C2 at a concrete armed iteration. -/
theorem receiver_step_units_witness :
    receiverStep c2ArmSt "axb".toList = some c2ArmEnd ∧
    c2ArmEnd.log = c2ArmSt.log ++
      (splitData c2ArmSt.split_lines "axb".toList).map (fun l => (l, "RX")) :=
  ⟨rfl,
    ((receiver_step_units c2ArmSt c2ArmEnd "axb".toList rfl).1 [['x']]
      rfl).2.1⟩

/-- Buffer already satisfying the wait, for the C3 failing input. -/
def c3St : TestTarget :=
  { TestTarget.init with active := true, rx_buffer := ["abc".toList] }

/-- C3: evaluation at the failing input: with the buffer already containing
a unit with the target and count 1, wait_str raises UnboundLocalError (the
while loop body never runs, so the local result is returned unassigned)
instead of returning true; the outcome is independent of the wait
primitive (no blocking occurs). -/
theorem wait_str_satisfied_raises :
    ∀ oracle : Nat → Bool,
      wait_str c3St ['b'] 1 oracle 0 = Except.error "UnboundLocalError" :=
  fun _ => rfl

/-- Engine state for the C4 failing input. -/
def c4St : TestTarget :=
  { TestTarget.init with active := true, rx_buffer := ["xy".toList] }

/-- C4: evaluation at the failing input: a count of zero or a negative
count makes wait_str raise UnboundLocalError (loop skipped, local result
unassigned) rather than returning normally, independently of the wait
primitive. -/
theorem wait_str_nonpositive_count_raises :
    ∀ oracle : Nat → Bool,
      wait_str c4St ['x'] 0 oracle 0 = Except.error "UnboundLocalError" ∧
      wait_str c4St ['x'] (-1) oracle 0 = Except.error "UnboundLocalError" :=
  fun _ => ⟨rfl, rfl⟩

/-- C5: wait_any on a non-empty buffer returns true at once with found-match
set to the first buffer entry, touching nothing else and consuming no
blocking outcome; on an empty buffer the pending signal count is drained
to zero before arming, so the result is the freshly-arrived-signal outcome
regardless of any stale pending signals. -/
theorem wait_any_spec (st : TestTarget) (oracle : Nat → Bool) (idx : Nat) :
    (∀ x rest, st.rx_buffer = x :: rest →
      wait_any st oracle idx = ({ st with found_str := some x }, true, idx)) ∧
    (st.rx_buffer = [] →
      (wait_any st oracle idx).2.1 = oracle idx ∧
      (wait_any st oracle idx).1.semaphore = 0 ∧
      (wait_any st oracle idx).2.2 = idx + 1) := by
  constructor
  · intro x rest h
    simp [wait_any, h]
  · intro h
    simp [wait_any, h, flushSemaphore, pyAcquire]

/-- Non-empty-buffer state for the C5 witness. -/
def c5aSt : TestTarget := { TestTarget.init with rx_buffer := [['a']] }

/-- Empty-buffer state with stale pending signals for the C5 witness. -/
def c5bSt : TestTarget := { TestTarget.init with semaphore := 2 }

/-- Witness for C5: a non-empty buffer returns immediately; an empty buffer
with two stale signals still reports the fresh outcome (false). -/
theorem wait_any_spec_witness :
    wait_any c5aSt (fun _ => false) 0 =
      ({ c5aSt with found_str := some ['a'] }, true, 0) ∧
    (wait_any c5bSt (fun _ => false) 0).2.1 = (fun _ => false) 0 :=
  ⟨(wait_any_spec c5aSt (fun _ => false) 0).1 ['a'] [] rfl,
   ((wait_any_spec c5bSt (fun _ => false) 0).2 rfl).1⟩

section WaitClearLemmas

lemma finishWaitStr_ok {q : TestTarget × Option Bool × Nat}
    {r : TestTarget × Bool × Nat} (h : finishWaitStr q = Except.ok r) :
    r.1.wait_strings = some [] := by
  rw [finishWaitStr] at h
  split at h
  · cases h
    rfl
  · cases h

lemma wait_str_ok_wait_strings {st : TestTarget} {s : List Char}
    {count : Int} {oracle : Nat → Bool} {idx : Nat}
    {r : TestTarget × Bool × Nat}
    (h : wait_str st s count oracle idx = Except.ok r) :
    r.1.wait_strings = some [] := by
  rw [wait_str] at h
  split at h
  · cases h
  · exact finishWaitStr_ok h

lemma pyFindMultiStr_ok_skeleton {a : PyStrsArg} {st : TestTarget}
    {lines : List (List Char)} {st1 : TestTarget} {b : Bool}
    (h : pyFindMultiStr a st lines = Except.ok (st1, b)) :
    st1.wait_strings = st.wait_strings ∧ st1.rx_buffer = st.rx_buffer := by
  rw [pyFindMultiStr] at h
  split at h
  · cases h
    exact ⟨rfl, rfl⟩
  · cases h

lemma armAndWait_wait_strings (st : TestTarget) (strings : List (List Char))
    (oracle : Nat → Bool) (idx : Nat) :
    (armAndWait st strings oracle idx).1.wait_strings = some [] := by
  simp [armAndWait, flushSemaphore, pyAcquire]

lemma wait_multi_str_ok_wait_strings {st : TestTarget}
    {strings : List (List Char)} {oracle : Nat → Bool} {idx : Nat}
    {r : TestTarget × Bool × Nat}
    (h0 : st.wait_strings = some [])
    (h : wait_multi_str st strings oracle idx = Except.ok r) :
    r.1.wait_strings = some [] := by
  rw [wait_multi_str] at h
  split at h
  · cases h
    exact armAndWait_wait_strings _ _ _ _
  · split at h
    · cases h
    · cases h
      rename_i heq
      exact (pyFindMultiStr_ok_skeleton heq).1.trans h0
    · cases h
      exact armAndWait_wait_strings _ _ _ _

end WaitClearLemmas

/-- C6: starting from the idle wait-request state, every return of
wait_any, and every normal (boolean) return of wait_str or
wait_multi_str, leaves the wait-request set empty, so no target strings
remain armed between wait calls. -/
theorem wait_calls_clear_request (st : TestTarget) (oracle : Nat → Bool)
    (idx : Nat) (h : st.wait_strings = some []) :
    (wait_any st oracle idx).1.wait_strings = some [] ∧
    (∀ s count r,
      wait_str st s count oracle idx = Except.ok r →
      r.1.wait_strings = some []) ∧
    (∀ strings r,
      wait_multi_str st strings oracle idx = Except.ok r →
      r.1.wait_strings = some []) := by
  refine ⟨?_, ?_, ?_⟩
  · cases hb : st.rx_buffer with
    | nil => simp [wait_any, hb, flushSemaphore, pyAcquire]
    | cons x rest => simp [wait_any, hb, h]
  · intro s count r hok
    exact wait_str_ok_wait_strings hok
  · intro strings r hok
    exact wait_multi_str_ok_wait_strings h hok

/-- Started engine state for the C6 witness. -/
def c6St : TestTarget := { TestTarget.init with active := true }

/-- State after the C6 witness wait_str call. -/
def c6End : TestTarget :=
  { TestTarget.init with active := true, wait_strings := some [] }

/-- Witness for C6: concrete wait_any and wait_str calls both end with the
wait-request set empty. -/
theorem wait_calls_clear_request_witness :
    (wait_any c6St (fun _ => true) 0).1.wait_strings = some [] ∧
    c6End.wait_strings = some [] :=
  ⟨(wait_calls_clear_request c6St (fun _ => true) 0 rfl).1,
   (wait_calls_clear_request c6St (fun _ => true) 0 rfl).2.1 ['x'] 1
     (c6End, true, 1) rfl⟩

/-- C7: when the connector's open fails, start logs the failure with an
error tag and returns false, and neither activates the engine nor spawns
the receive loop: everything except the log is unchanged. -/
theorem start_failure_spec (st : TestTarget) :
    (start false st).2 = false ∧
    (start false st).1.active = st.active ∧
    (start false st).1.thread_started = st.thread_started ∧
    (start false st).1 =
      { st with log := st.log ++ [("failed to connect".toList, "ER")] } := by
  simp [start]

section LoggerLemmas

lemma loggerNormalize_terminated (message : List Char) :
    endsWithTerminator (loggerNormalize message) = true := by
  unfold loggerNormalize
  split
  · rfl
  · rename_i c heq
    split
    · rename_i hcc
      unfold endsWithTerminator
      rw [heq]
      rcases hcc with hc | hc <;> simp [hc]
    · unfold endsWithTerminator
      rw [List.getLast?_concat]
      simp

lemma loggerNormalize_ne_nil (message : List Char) :
    loggerNormalize message ≠ [] := by
  unfold loggerNormalize
  split
  · simp
  · rename_i c heq
    split
    · intro hnil
      rw [hnil] at heq
      cases heq
    · simp

lemma endsWithTerminator_append (a b : List Char) (hb : b ≠ []) :
    endsWithTerminator (a ++ b) = endsWithTerminator b := by
  rw [endsWithTerminator, endsWithTerminator, List.getLast?_append]
  cases hl : b.getLast? with
  | none => exact absurd (List.getLast?_eq_none_iff.mp hl) hb
  | some c => rfl

end LoggerLemmas

/-- C8: every message handed to the loggers' write, including the empty
one, is logged line-delimited: the default logger's output ends with a
carriage return or newline, and so does the full timestamped line of the
file logger, for every message, timestamp and tag. -/
theorem logger_write_line_terminated (message timestamp info : List Char) :
    endsWithTerminator (loggerNormalize message) = true ∧
    endsWithTerminator (standardLoggerLine timestamp info message) = true := by
  refine ⟨loggerNormalize_terminated message, ?_⟩
  have h1 : standardLoggerLine timestamp info message =
      (timestamp ++ [':'] ++ info ++ [':']) ++ loggerNormalize message := by
    simp [standardLoggerLine]
  rw [h1, endsWithTerminator_append _ _ (loggerNormalize_ne_nil message)]
  exact loggerNormalize_terminated message

/-- C9: find_multi_str ignores both of its parameters, always matching the
built-in type object list against the receive buffer: the result never
depends on the arguments, a non-empty buffer raises TypeError (iterating
a type object), and an empty buffer returns false. -/
theorem find_multi_str_ignores_args (st : TestTarget)
    (strings : List (List Char)) (lines : Option (List (List Char))) :
    find_multi_str st strings lines = find_multi_str st [] none ∧
    (st.rx_buffer = [] →
      find_multi_str st strings lines =
        Except.ok ({ st with found_str := none }, false)) ∧
    (∀ x rest, st.rx_buffer = x :: rest →
      find_multi_str st strings lines = Except.error "TypeError") := by
  refine ⟨rfl, ?_, ?_⟩
  · intro h
    simp [find_multi_str, pyFindMultiStr, findMultiStrLoop, h]
  · intro x rest h
    simp [find_multi_str, pyFindMultiStr, findMultiStrLoop, h]

/-- Non-empty-buffer state for the C9 witness. -/
def c9St : TestTarget := { TestTarget.init with rx_buffer := [['q']] }

/-- Witness for C9: a one-entry buffer raises TypeError, an empty buffer
returns false, for an arbitrary strings argument. -/
theorem find_multi_str_ignores_args_witness :
    find_multi_str c9St [['q']] none = Except.error "TypeError" ∧
    find_multi_str TestTarget.init [['q']] none =
      Except.ok ({ TestTarget.init with found_str := none }, false) :=
  ⟨(find_multi_str_ignores_args c9St [['q']] none).2.2 ['q'] [] rfl,
   (find_multi_str_ignores_args TestTarget.init [['q']] none).2.1 rfl⟩

/-- C10: send decodes its byte payload as UTF-8 for logging before
forwarding, so an invalid payload raises UnicodeDecodeError with the
engine state untouched: nothing is logged and nothing reaches
Connector.send. -/
theorem send_invalid_utf8_raises (st : TestTarget) (message : List Nat)
    (h : utf8Decode message = none) :
    send st message = Except.error ("UnicodeDecodeError", st) := by
  simp [send, h]

/-- Witness for C10 at the invalid single byte 0xFF. -/
theorem send_invalid_utf8_raises_witness :
    utf8Decode [0xFF] = none ∧
    send TestTarget.init [0xFF] =
      Except.error ("UnicodeDecodeError", TestTarget.init) :=
  ⟨rfl, send_invalid_utf8_raises TestTarget.init [0xFF] rfl⟩

end TcpTestDriver
